import Mathlib

/-!
CaseFlow import pipeline — verification development

A shallow embedding in Lean 4 of the CaseFlow import pipeline:

* the backend batch-import service
  (`src/app/backend/src/import/import.service.ts`): `processBatch`,
  `pauseImport`, `resumeImport`, together with a deterministic model of the
  backing store (a set of already-committed case identifiers, with a unique
  constraint on the case identifier);
* the frontend validation engine (`src/app/frontend/src/utils/validation.ts`):
  `validateRow` (a zod object schema), `validateAllRows`, `getSuggestion`;
* the frontend import store (`src/app/frontend/src/store/importStore.ts`):
  `setValidationErrors` over the row-status map;
* the column auto-mapping utility
  (`src/app/frontend/src/utils/columnMapping.ts`): `levenshteinDistance`,
  `similarity`, `findBestMatch`, `autoMapColumns`.

Modelling conventions:

* JavaScript `Map`s are modelled as association lists with JS `Map.set`
  semantics (replace the first binding of the key in place, else append) and
  JS `Set`s as lists with membership-based insertion.
* JS numbers holding counters are modelled as `Nat` (they stay small,
  nonnegative integers in the source), except where the source can produce a
  negative value (`lastProcessedIndex`, `remainingRows`), which is `Int`.
* JS floating-point similarity scores are modelled as exact nonnegative
  rationals `num/den` (`Score`), compared by cross-multiplication; every
  score the source builds is of the form `1`, `9/10`, `6/10`, `0` or
  `(max-d)/max`, all exactly representable.
* `new Date(s)` / `getFullYear` are modelled by an ISO `YYYY-MM-DD` parser
  (`parseIsoDate`); the "current year" read from the system clock is passed
  explicitly as a `Nat` parameter.
-/

/-! ## Association lists with JavaScript `Map` semantics -/

/-- JS `Map.get`: value of the first binding of `k`, if any. -/
def lookupA {α : Type} : List (String × α) → String → Option α
  | [], _ => none
  | (k', v) :: rest, k => if k' = k then some v else lookupA rest k

/-- JS `Map.set`: replace the first binding of `k` in place, else append. -/
def setA {α : Type} : List (String × α) → String → α → List (String × α)
  | [], k, v => [(k, v)]
  | (k', v') :: rest, k, v =>
      if k' = k then (k, v) :: rest else (k', v') :: setA rest k v

/-! ## Dates

`new Date(s)` in the source is always applied to CSV cell contents; the model
accepts ISO `YYYY-MM-DD` strings with a plausible month and day and exposes
the parsed year, which is all the source ever reads off the date. -/

/-- Numeric value of a decimal digit character. -/
def digitVal (c : Char) : Nat := c.toNat - '0'.toNat

/-- Model of `new Date(s)` restricted to ISO `YYYY-MM-DD` input: `some year`
when the string parses as a calendar date, `none` when `isNaN(d.getTime())`
would hold. -/
def parseIsoDate (s : String) : Option Nat :=
  match s.toList with
  | [y1, y2, y3, y4, '-', m1, m2, '-', d1, d2] =>
      if [y1, y2, y3, y4, m1, m2, d1, d2].all Char.isDigit then
        let month := digitVal m1 * 10 + digitVal m2
        let day := digitVal d1 * 10 + digitVal d2
        if 1 ≤ month ∧ month ≤ 12 ∧ 1 ≤ day ∧ day ≤ 31 then
          some (digitVal y1 * 1000 + digitVal y2 * 100 + digitVal y3 * 10 + digitVal y4)
        else none
      else none
  | _ => none

/-! ## Backend: import service (`import.service.ts`)

`ImportStatus`, `Category` and `Priority` are the Prisma enums of the backend
data layer (the Prisma schema itself is outside the mirrored sources; the
enum values are those the spec and the frontend types list). The Prisma store
is modelled as the list of already-committed case identifiers: `case.create`
succeeds exactly when the created row's `caseId` does not collide with a
stored one, and fails with a unique-constraint violation otherwise; audit-log
writes have no observable effect on the import service's results and are not
modelled. -/

inductive ImportStatus where
  | PENDING | PROCESSING | PAUSED | COMPLETED | FAILED
deriving DecidableEq, Repr

/-- `Category` enum values (`TAX`, `LICENSE`, `PERMIT`). -/
def categoryValues : List String := ["TAX", "LICENSE", "PERMIT"]

/-- `Priority` enum values (`LOW`, `MEDIUM`, `HIGH`). -/
def priorityValues : List String := ["LOW", "MEDIUM", "HIGH"]

/-- One entry of `BatchResult.errors`. -/
structure BatchError where
  index : Nat
  caseId : String
  error : String
deriving DecidableEq, Repr

/-- Return type of `processBatch`. -/
structure BatchResult where
  success : Nat
  failed : Nat
  errors : List BatchError
deriving DecidableEq, Repr

/-- The `importJob` Prisma record, restricted to the fields the import
service reads or writes. -/
structure ImportJob where
  id : String
  fileName : String
  totalRows : Nat
  processedRows : Nat
  successCount : Nat
  failedCount : Nat
  lastProcessedIndex : Int
  status : ImportStatus
  errorData : List BatchError
deriving DecidableEq, Repr

/-- `ImportRowDto`: one row of a batch, as posted by the frontend. Optional
DTO fields are `Option String`. -/
structure ImportRowDto where
  caseId : String
  applicantName : String
  dob : String
  category : String
  email : Option String
  phone : Option String
  priority : Option String
deriving DecidableEq, Repr

/-- `BatchImportDto`: the payload of one chunk. -/
structure BatchImportDto where
  rows : List ImportRowDto
  startIndex : Nat
deriving DecidableEq, Repr

/-- The prepared creation data for one row that passed the per-row checks
(the element type of `caseCreations`). -/
structure CaseCreation where
  caseId : String
  applicantName : String
  dob : String
  email : Option String
  phone : Option String
  category : String
  priority : String
deriving DecidableEq, Repr

/-- Errors thrown by the service: `NotFoundException` and
`BadRequestException`. -/
inductive ImportError where
  | notFound (message : String)
  | invalidState (message : String)
deriving DecidableEq, Repr

/-- JS `x || y` for strings: `y` when `x` is empty (falsy), else `x`. -/
def jsOrString (x y : String) : String := if x = "" then y else x

/-- JS `x || null` for an optional string: empty and absent both collapse to
`null`. -/
def jsOrNull (x : Option String) : Option String :=
  match x with
  | some s => if s = "" then none else some s
  | none => none

/-- The per-row pre-validation of `processBatch` (the `try` block of the
first loop): `some message` when the row is rejected before touching the
store, `none` when it is added to `caseCreations`. -/
def prevalidate (row : ImportRowDto) : Option String :=
  if row.caseId = "" ∨ row.applicantName = "" ∨ row.dob = "" ∨ row.category = "" then
    some "Missing required fields"
  else if (parseIsoDate row.dob).isNone then
    some "Invalid date format for dob"
  else if row.category ∉ categoryValues then
    some ("Invalid category: " ++ row.category)
  else
    none

/-- Priority defaulting of `processBatch`: `LOW` unless the DTO carries a
truthy, valid priority. -/
def defaultedPriority (p : Option String) : String :=
  match p with
  | some s => if s ≠ "" ∧ s ∈ priorityValues then s else "LOW"
  | none => "LOW"

/-- The creation object pushed onto `caseCreations` for a row that passed
pre-validation. -/
def mkCreation (row : ImportRowDto) : CaseCreation :=
  { caseId := row.caseId
    applicantName := row.applicantName
    dob := row.dob
    email := jsOrNull row.email
    phone := jsOrNull row.phone
    category := row.category
    priority := defaultedPriority row.priority }

/-- First loop of `processBatch`: walk the chunk's rows with their offset
`i`, collecting the prepared creations (in order) and the pre-validation
errors (in push order); a failing row records `index = startIndex + i` and
`caseId = row.caseId || 'unknown'`. -/
def phase1Go (startIndex : Nat) : List ImportRowDto → Nat → List CaseCreation × List BatchError
  | [], _ => ([], [])
  | row :: rest, i =>
      match prevalidate row with
      | some msg =>
          ((phase1Go startIndex rest (i + 1)).1,
           ⟨startIndex + i, jsOrString row.caseId "unknown", msg⟩
             :: (phase1Go startIndex rest (i + 1)).2)
      | none =>
          (mkCreation row :: (phase1Go startIndex rest (i + 1)).1,
           (phase1Go startIndex rest (i + 1)).2)

/-- Second loop of `processBatch`: walk `caseCreations` with position `j`
(`caseCreations.indexOf(caseData)` — the creations are distinct freshly
allocated objects, so `indexOf` is reference-identity and returns exactly the
element's position in `caseCreations`), attempting `case.create` against the
store; a unique-constraint collision records
`⟨startIndex + j, caseId, "Duplicate case ID"⟩` and leaves the store
unchanged, success appends the identifier to the store. Returns
`(successCount, failedCount, errors, finalStore)`. -/
def phase2Go (startIndex : Nat) (store : List String) :
    List CaseCreation → Nat → Nat × Nat × List BatchError × List String
  | [], _ => (0, 0, [], store)
  | c :: rest, j =>
      if c.caseId ∈ store then
        let r := phase2Go startIndex store rest (j + 1)
        (r.1, r.2.1 + 1, ⟨startIndex + j, c.caseId, "Duplicate case ID"⟩ :: r.2.2.1, r.2.2.2)
      else
        let r := phase2Go startIndex (c.caseId :: store) rest (j + 1)
        (r.1 + 1, r.2.1, r.2.2.1, r.2.2.2)

/-- Both loops of `processBatch`: the `BatchResult` (success / failed counts
and the concatenated error list, pre-validation errors first) and the store
after the chunk. -/
def chunkResult (store : List String) (dto : BatchImportDto) : BatchResult × List String :=
  let p1 := phase1Go dto.startIndex dto.rows 0
  let p2 := phase2Go dto.startIndex store p1.1 0
  (⟨p2.1, p1.2.length + p2.2.1, p1.2 ++ p2.2.2.1⟩, p2.2.2.2)

/-- The final `importJob.update` of `processBatch`: counters are bumped
additively from the originally fetched record, `lastProcessedIndex` becomes
the chunk's last absolute index, the status becomes `COMPLETED` exactly when
the new `processedRows` reaches `totalRows` (else `PROCESSING`), and the
chunk's errors are appended to `errorData` when nonempty. -/
def updateJob (job : ImportJob) (dto : BatchImportDto) (result : BatchResult) : ImportJob :=
  { job with
      processedRows := job.processedRows + dto.rows.length
      successCount := job.successCount + result.success
      failedCount := job.failedCount + result.failed
      lastProcessedIndex := (dto.startIndex : Int) + dto.rows.length - 1
      status := if job.totalRows ≤ job.processedRows + dto.rows.length
                then ImportStatus.COMPLETED else ImportStatus.PROCESSING
      errorData := if result.errors = [] then job.errorData else job.errorData ++ result.errors }

/-- `processBatch(jobId, dto, userId)`. The `findUnique` lookup result is
passed directly (`none` = unknown job id). Rejects a missing job with
`NotFound` and a `COMPLETED`/`FAILED` job with `BadRequest`; otherwise runs
the two loops and the final job update (the intermediate PENDING→PROCESSING
write is overwritten by the final update and has no observable effect on the
returned state). Returns the `BatchResult`, the updated job record and the
updated store. -/
def processBatch (job? : Option ImportJob) (store : List String) (dto : BatchImportDto) :
    Except ImportError (BatchResult × ImportJob × List String) :=
  match job? with
  | none => .error (.notFound "Import job not found")
  | some job =>
      if job.status = ImportStatus.COMPLETED ∨ job.status = ImportStatus.FAILED then
        .error (.invalidState "Import job already completed or failed")
      else
        .ok ((chunkResult store dto).1, updateJob job dto (chunkResult store dto).1,
             (chunkResult store dto).2)

/-- `pauseImport(jobId)`: the only check is existence; the status is set to
`PAUSED` unconditionally and the pre-pause `lastProcessedIndex` is reported. -/
def pauseImport (job? : Option ImportJob) :
    Except ImportError (String × Int × ImportJob) :=
  match job? with
  | none => .error (.notFound "Import job not found")
  | some job =>
      .ok ("Import paused", job.lastProcessedIndex, { job with status := ImportStatus.PAUSED })

/-- `resumeImport(jobId)`: fails with `BadRequest` unless the job is
`PAUSED`; otherwise flips the status to `PROCESSING` and reports
`lastProcessedIndex` and `remainingRows = totalRows - processedRows`. -/
def resumeImport (job? : Option ImportJob) :
    Except ImportError (String × Int × Int × ImportJob) :=
  match job? with
  | none => .error (.notFound "Import job not found")
  | some job =>
      if job.status ≠ ImportStatus.PAUSED then
        .error (.invalidState "Import is not paused")
      else
        .ok ("Import resumed", job.lastProcessedIndex,
             (job.totalRows : Int) - (job.processedRows : Int),
             { job with status := ImportStatus.PROCESSING })

/-! ## Frontend: validation engine (`validation.ts`)

`validateRow` parses the row against the zod object schema `caseSchema` and
maps each issue to a `ValidationError` carrying the offending field, the
issue message, the field's string value (when present) and
`getSuggestion(field, value)`. zod semantics mirrored here:

* a required `z.string()` receiving `undefined` produces one issue with the
  default message `"Required"` and aborts that field's further checks;
* `.min(1, msg)` fails exactly on the empty string;
* `.refine` runs whenever the inner parse did not abort — in particular it
  still runs after a failing `.min(1)` check (a dirty, non-aborted result);
* `.optional().refine(f)` passes `undefined` through to `f`;
* `z.enum` with a custom `errorMap` reports that fixed message for any
  failure (wrong value or missing); without one it reports the default
  `Invalid enum value. Expected … , received '…'` message;
* `.optional().default('LOW')` substitutes the default only for `undefined`
  — the empty string is parsed by the enum and fails;
* issues are collected per schema key in declaration order
  (`case_id, applicant_name, dob, email, phone, category, priority`). -/

/-- `CaseRow`: a mapped CSV row. Every cell may be absent at runtime (the
mapping step only fills mapped columns), so all fields are optional. -/
structure CaseRow where
  _id : Option String
  case_id : Option String
  applicant_name : Option String
  dob : Option String
  email : Option String
  phone : Option String
  category : Option String
  priority : Option String
deriving DecidableEq, Repr

/-- `ValidationError` of the frontend types module. -/
structure ValidationError where
  field : String
  message : String
  value : Option String
  suggestion : Option String
deriving DecidableEq, Repr

/-- `value.replace(/\s+/g, ' ')`: collapse every maximal whitespace run to a
single space. -/
def collapseRuns : List Char → List Char
  | [] => []
  | [c] => if c.isWhitespace then [' '] else [c]
  | c :: d :: rest =>
      if c.isWhitespace then
        (if d.isWhitespace then collapseRuns (d :: rest) else ' ' :: collapseRuns (d :: rest))
      else c :: collapseRuns (d :: rest)

/-- JS `String.trim`: strip leading and trailing whitespace. -/
def jsTrim (l : List Char) : List Char :=
  ((l.dropWhile Char.isWhitespace).reverse.dropWhile Char.isWhitespace).reverse

/-- `value.replace(/\s+/g, ' ').trim()` on a string. -/
def collapseWhitespace (s : String) : String :=
  String.mk (jsTrim (collapseRuns s.toList))

/-- `value.replace(/[\s()-]/g, '')`: strip whitespace, parentheses and
hyphens (used on phone numbers). -/
def stripPhoneChars (s : String) : String :=
  String.mk (s.toList.filter (fun c => ¬ (c.isWhitespace ∨ c = '(' ∨ c = ')' ∨ c = '-')))

/-- `/^\d{10}$/` on an already-cleaned string. -/
def isTenDigits (s : String) : Bool :=
  s.toList.length = 10 && s.toList.all Char.isDigit

/-- `/^\+?[1-9]\d{1,14}$/` on an already-cleaned string: optional `+`, a
leading digit `1`–`9`, then 1 to 14 further digits. -/
def phonePatternOk (s : String) : Bool :=
  let l := match s.toList with
           | '+' :: rest => rest
           | l => l
  match l with
  | [] => false
  | c :: rest =>
      ('1' ≤ c ∧ c ≤ '9') && rest.all Char.isDigit
        && 1 ≤ rest.length && rest.length ≤ 14

/-- `/^[^\s@]+@[^\s@]+\.[^\s@]+$/`: exactly one `@`, a nonempty local part,
no whitespace, and a dot strictly inside the domain part. -/
def emailPatternOk (s : String) : Bool :=
  match s.toList.splitOn '@' with
  | [a, r] =>
      a ≠ [] && (a ++ r).all (fun c => ¬ c.isWhitespace)
        && ((r.drop 1).dropLast.any (fun c => c = '.'))
  | _ => false

/-- JS `String.toUpperCase` (ASCII, which covers every value compared
against the upper-case enum tokens). -/
def jsToUpper (s : String) : String := String.mk (s.toList.map Char.toUpper)

/-- Does `big` start with `small`? -/
def startsWithL : List Char → List Char → Bool
  | _, [] => true
  | [], _ :: _ => false
  | a :: as, b :: bs => a = b && startsWithL as bs

/-- JS `big.includes(small)`: `small` occurs contiguously inside `big`
(every string includes the empty string). -/
def includesL : List Char → List Char → Bool
  | [], small => small.isEmpty
  | a :: rest, small => startsWithL (a :: rest) small || includesL rest small

/-- `getSuggestion(field, value)`: the deterministic candidate fix attached
to an error. `value` is the row's cell for the issue's field; a non-string
(absent) value yields no suggestion. -/
def getSuggestion (field : String) (value : Option String) : Option String :=
  match value with
  | none => none
  | some v =>
      if field = "applicant_name" then
        if includesL v.toList [' ', ' '] then some (collapseWhitespace v) else none
      else if field = "phone" then
        let cleaned := stripPhoneChars v
        if isTenDigits cleaned then some ("+91" ++ cleaned) else none
      else if field = "category" then
        let upper := jsToUpper v
        if upper ∈ categoryValues then some upper else none
      else if field = "priority" then
        let upper := jsToUpper v
        if upper ∈ priorityValues then some upper
        else if v = "" then some "LOW" else none
      else none

/-- The dob `.refine` predicate: the string parses as a date whose year lies
in `[1900, currentYear]`. -/
def dobRefineOk (currentYear : Nat) (s : String) : Bool :=
  match parseIsoDate s with
  | some year => 1900 ≤ year && year ≤ currentYear
  | none => false

/-- zod issue messages produced for one field of `caseSchema`, in check
order. -/
def caseIdIssues (v : Option String) : List String :=
  match v with
  | none => ["Required"]
  | some s => if s = "" then ["Case ID is required"] else []

def applicantNameIssues (v : Option String) : List String :=
  match v with
  | none => ["Required"]
  | some s => if s = "" then ["Applicant name is required"] else []

def dobIssues (currentYear : Nat) (v : Option String) : List String :=
  match v with
  | none => ["Required"]
  | some s =>
      (if s = "" then ["Date of birth is required"] else [])
        ++ (if dobRefineOk currentYear s then []
            else ["Invalid date (must be between 1900 and today)"])

def emailIssues (v : Option String) : List String :=
  match v with
  | none => []
  | some s => if s = "" then [] else if emailPatternOk s then [] else ["Invalid email format"]

def phoneIssues (v : Option String) : List String :=
  match v with
  | none => []
  | some s =>
      if s = "" then []
      else if phonePatternOk (stripPhoneChars s) then []
      else ["Invalid phone format (use E.164)"]

def categoryIssues (v : Option String) : List String :=
  match v with
  | none => ["Category must be TAX, LICENSE, or PERMIT"]
  | some s => if s ∈ categoryValues then [] else ["Category must be TAX, LICENSE, or PERMIT"]

def priorityIssues (v : Option String) : List String :=
  match v with
  | none => []
  | some s =>
      if s ∈ priorityValues then []
      else ["Invalid enum value. Expected 'LOW' | 'MEDIUM' | 'HIGH', received '" ++ s ++ "'"]

/-- Map one field's issue messages to `ValidationError`s, attaching the cell
value and `getSuggestion`. -/
def issuesToErrors (field : String) (v : Option String) (msgs : List String) :
    List ValidationError :=
  msgs.map (fun m => ⟨field, m, v, getSuggestion field v⟩)

/-- `validateRow(row)`: all zod issues of `caseSchema.parse(row)` mapped to
`ValidationError`s, in schema-key order. `currentYear` is the value of
`new Date().getFullYear()` at call time. -/
def validateRow (currentYear : Nat) (row : CaseRow) : List ValidationError :=
  issuesToErrors "case_id" row.case_id (caseIdIssues row.case_id)
    ++ issuesToErrors "applicant_name" row.applicant_name (applicantNameIssues row.applicant_name)
    ++ issuesToErrors "dob" row.dob (dobIssues currentYear row.dob)
    ++ issuesToErrors "email" row.email (emailIssues row.email)
    ++ issuesToErrors "phone" row.phone (phoneIssues row.phone)
    ++ issuesToErrors "category" row.category (categoryIssues row.category)
    ++ issuesToErrors "priority" row.priority (priorityIssues row.priority)

/-- `row._id || ''`. -/
def rowKey (row : CaseRow) : String := (row._id.getD "")

/-- The duplicate-within-file error pushed by `validateAllRows`. -/
def dupError (caseId : String) : ValidationError :=
  ⟨"case_id", "Duplicate case ID in file", some caseId, none⟩

/-- The error list `validateAllRows` computes for one row, given the set of
case identifiers seen on earlier rows: the row's own `validateRow` errors,
then the duplicate-in-file error when the (truthy) identifier was already
seen. -/
def rowAllErrors (currentYear : Nat) (seen : List String) (row : CaseRow) :
    List ValidationError :=
  validateRow currentYear row
    ++ (match row.case_id with
        | some cid => if cid ≠ "" ∧ cid ∈ seen then [dupError cid] else []
        | none => [])

/-- The `seenCaseIds` update for one row: a truthy identifier is added. -/
def seenUpdate (seen : List String) (row : CaseRow) : List String :=
  match row.case_id with
  | some cid => if cid ≠ "" then seen.insert cid else seen
  | none => seen

/-- One iteration of the `validateAllRows` loop over
`(seenCaseIds, errorsMap)`. -/
def validateAllStep (currentYear : Nat)
    (st : List String × List (String × List ValidationError)) (row : CaseRow) :
    List String × List (String × List ValidationError) :=
  let errors := rowAllErrors currentYear st.1 row
  (seenUpdate st.1 row,
   if errors = [] then st.2 else setA st.2 (rowKey row) errors)

/-- `validateAllRows(rows)`: the per-row error map (a JS `Map` keyed by
`row._id || ''`; rows with zero errors get no entry). -/
def validateAllRows (currentYear : Nat) (rows : List CaseRow) :
    List (String × List ValidationError) :=
  (rows.foldl (validateAllStep currentYear) ([], [])).2

/-! ## Frontend: import store (`importStore.ts`)

Only the slice of the zustand store that `setValidationErrors` reads and
writes is modelled: `mappedData`, `validationErrors` and `rowStatuses`. -/

inductive RowStatus where
  | pending | valid | invalid | submitting | success | failed
deriving DecidableEq, Repr

structure ImportState where
  mappedData : List CaseRow
  validationErrors : List (String × List ValidationError)
  rowStatuses : List (String × RowStatus)
deriving Repr

/-- `setValidationErrors(errors)`: stores the new error map and rebuilds
`rowStatuses` by walking every row of `mappedData` and setting its status to
`invalid` when the error map carries a nonempty entry for `row._id || ''`,
else to `valid`. -/
def setValidationErrors (st : ImportState)
    (errors : List (String × List ValidationError)) : ImportState :=
  let statuses := st.mappedData.foldl
    (fun m row =>
      let rid := rowKey row
      let hasErrors : Bool := match lookupA errors rid with
                              | some es => decide (0 < es.length)
                              | none => false
      setA m rid (if hasErrors then RowStatus.invalid else RowStatus.valid))
    st.rowStatuses
  { st with validationErrors := errors, rowStatuses := statuses }

/-! ## Frontend: column auto-mapping (`columnMapping.ts`) -/

/-- An exact nonnegative rational `num/den`: the model of the JS float
similarity scores. Every score the source produces is `0`, `1`, `9/10`,
`6/10` or `(max-d)/max`; comparisons are exact, by cross-multiplication. -/
structure Score where
  num : Nat
  den : Nat
deriving DecidableEq, Repr

def Score.lt (a b : Score) : Bool := a.num * b.den < b.num * a.den

def Score.le (a b : Score) : Bool := a.num * b.den ≤ b.num * a.den

def Score.one : Score := ⟨1, 1⟩

def Score.zero : Score := ⟨0, 1⟩

/-- The keys of `SCHEMA_FIELDS`, in object-literal (= `Object.keys`) order. -/
inductive SchemaField where
  | case_id | applicant_name | dob | email | phone | category | priority
deriving DecidableEq, Repr

def allSchemaFields : List SchemaField :=
  [.case_id, .applicant_name, .dob, .email, .phone, .category, .priority]

def fieldKey : SchemaField → String
  | .case_id => "case_id"
  | .applicant_name => "applicant_name"
  | .dob => "dob"
  | .email => "email"
  | .phone => "phone"
  | .category => "category"
  | .priority => "priority"

def fieldLabel : SchemaField → String
  | .case_id => "Case ID"
  | .applicant_name => "Applicant Name"
  | .dob => "Date of Birth"
  | .email => "Email"
  | .phone => "Phone"
  | .category => "Category"
  | .priority => "Priority"

def fieldAliases : SchemaField → List String
  | .case_id => ["caseid", "case_number", "case_no", "id", "case", "reference", "ref"]
  | .applicant_name => ["name", "applicant", "full_name", "fullname", "person", "client", "customer"]
  | .dob => ["date_of_birth", "dateofbirth", "birth_date", "birthdate", "birthday", "born"]
  | .email => ["email_address", "emailaddress", "e-mail", "mail"]
  | .phone => ["phone_number", "phonenumber", "telephone", "tel", "mobile", "cell", "contact"]
  | .category => ["type", "case_type", "casetype", "cat", "classification"]
  | .priority => ["prio", "urgency", "importance", "level"]

/-- `ColumnMapping` of `columnMapping.ts`. -/
structure ColumnMapping where
  csvColumn : String
  schemaField : Option SchemaField
  confidence : Score
  isAutoMapped : Bool
deriving DecidableEq, Repr

/-- Inner cells of one DP row of `levenshteinDistance`: walks the characters
of `a` with the previous row (`ups`), the diagonal predecessor and the cell
just written to the left. -/
def levRowAux (bc : Char) : List Char → List Nat → Nat → Nat → List Nat
  | [], _, _, _ => []
  | _ :: _, [], _, _ => []
  | a :: as, up :: ups, diag, left =>
      let cur := if bc = a then diag else Nat.min (Nat.min (diag + 1) (left + 1)) (up + 1)
      cur :: levRowAux bc as ups up cur

/-- Outer loop of `levenshteinDistance`: one DP row per character of `b`,
row `i` starting with `matrix[i][0] = i`. -/
def levFold (a : List Char) : List Char → List Nat → Nat → List Nat
  | [], prev, _ => prev
  | bc :: bs, prev, i =>
      match prev with
      | [] => []
      | d :: ups => levFold a bs (i :: levRowAux bc a ups d i) (i + 1)

/-- `levenshteinDistance(a, b)`: the classic DP edit distance,
`matrix[b.length][a.length]` with `matrix[0][j] = j`, `matrix[i][0] = i` and
`matrix[i][j] = if b[i-1] = a[j-1] then diag else 1 + min(diag, left, up)`. -/
def levenshteinDistance (a b : List Char) : Nat :=
  (levFold a b (List.range (a.length + 1)) 1).getLastD 0

/-- `str.toLowerCase().replace(/[^a-z0-9]/g, '')`. -/
def normalizeHeader (s : String) : List Char :=
  (s.toList.map Char.toLower).filter
    (fun c => ('a' ≤ c ∧ c ≤ 'z') ∨ ('0' ≤ c ∧ c ≤ '9'))

/-- `similarity(str1, str2)`: normalize both, return 1 on equality, 1 when
the longer normalized string is empty, the fixed bonus 9/10 when either
normalized string occurs inside the other (note JS `includes("")` is true),
else `1 - distance/max(len) = (max - distance)/max`. -/
def similarity (str1 str2 : String) : Score :=
  let s1 := normalizeHeader str1
  let s2 := normalizeHeader str2
  if s1 = s2 then Score.one
  else
    let longer := if s1.length > s2.length then s1 else s2
    let shorter := if s1.length > s2.length then s2 else s1
    if longer.length = 0 then Score.one
    else if includesL longer shorter || includesL shorter longer then ⟨9, 10⟩
    else ⟨Nat.max s1.length s2.length - levenshteinDistance s1 s2,
          Nat.max s1.length s2.length⟩

/-- The alias loop of `findBestMatch`. -/
def scanAliases (f : SchemaField) (header : String)
    (acc : Option SchemaField × Score) : List String → Option SchemaField × Score
  | [] => acc
  | al :: rest =>
      let s := similarity header al
      scanAliases f header (if Score.lt acc.2 s then (some f, s) else acc) rest

/-- One field's turn inside `findBestMatch`: try the field key, the display
label, then every alias, keeping the strictly best score seen so far. -/
def scanField (header : String) (acc : Option SchemaField × Score)
    (f : SchemaField) : Option SchemaField × Score :=
  let s1 := similarity header (fieldKey f)
  let acc1 := if Score.lt acc.2 s1 then (some f, s1) else acc
  let s2 := similarity header (fieldLabel f)
  let acc2 := if Score.lt acc1.2 s2 then (some f, s2) else acc1
  scanAliases f header acc2 (fieldAliases f)

/-- `findBestMatch(csvHeader, availableFields)`: the best-scoring field, kept
only when its confidence reaches the 0.6 threshold. -/
def findBestMatch (header : String) (availableFields : List SchemaField) :
    Option SchemaField × Score :=
  let r := availableFields.foldl (scanField header) (none, Score.zero)
  if Score.le ⟨6, 10⟩ r.2 then r else (none, Score.zero)

/-- The first-pass candidate record of `autoMapColumns`. -/
structure Candidate where
  csvColumn : String
  field : Option SchemaField
  confidence : Score
deriving DecidableEq, Repr

/-- Stable insertion into a confidence-descending list: the new element goes
after every element whose confidence is at least as large. -/
def insertByConfDesc (c : Candidate) : List Candidate → List Candidate
  | [] => [c]
  | x :: xs =>
      if Score.lt x.confidence c.confidence then c :: x :: xs
      else x :: insertByConfDesc c xs

/-- `[...candidates].sort((a, b) => b.confidence - a.confidence)`: a stable
sort by descending confidence (JS `Array.sort` is stable, and a stable sort
under a consistent comparator has a unique result). -/
def sortByConfDesc (l : List Candidate) : List Candidate :=
  l.foldl (fun acc c => insertByConfDesc c acc) []

/-- The `else` branch of the assignment loop: locate the FIRST slot with this
candidate's `csvColumn` (JS `findIndex` compares column names, not
identities); if that slot currently holds an already-claimed field, blank it
out. -/
def assignElse (cand : Candidate) (st : List Candidate × List SchemaField) :
    List Candidate × List SchemaField :=
  match st.1.findIdx? (fun c => c.csvColumn = cand.csvColumn) with
  | none => st
  | some idx =>
      match st.1.get? idx with
      | none => st
      | some slot =>
          match slot.field with
          | some g =>
              if g ∈ st.2 then
                (st.1.set idx { cand with field := none, confidence := Score.zero }, st.2)
              else st
          | none => st

/-- One iteration of the assignment loop of `autoMapColumns`, processing one
candidate of the confidence-sorted list against the mutable `candidates`
array and the `usedFields` set. -/
def assignStep (st : List Candidate × List SchemaField) (cand : Candidate) :
    List Candidate × List SchemaField :=
  match cand.field with
  | some f =>
      if f ∈ st.2 then assignElse cand st
      else
        match st.1.findIdx? (fun c => c.csvColumn = cand.csvColumn) with
        | none => (st.1, f :: st.2)
        | some idx => (st.1.set idx cand, f :: st.2)
  | none => assignElse cand st

/-- `autoMapColumns(csvHeaders)`. During the first pass `usedFields` is still
empty, so `availableFields` is the full schema-field list for every header.
The sorted copy holds the first-pass candidate values; the assignment loop
mutates only the `candidates` array. -/
def autoMapColumns (csvHeaders : List String) : List ColumnMapping :=
  let candidates := csvHeaders.map (fun h =>
    let r := findBestMatch h allSchemaFields
    Candidate.mk h r.1 r.2)
  let final := (sortByConfDesc candidates).foldl assignStep (candidates, [])
  final.1.map (fun c =>
    match c.field with
    | some f =>
        if f ∈ final.2 then ColumnMapping.mk c.csvColumn (some f) c.confidence true
        else ColumnMapping.mk c.csvColumn none Score.zero false
    | none => ColumnMapping.mk c.csvColumn none Score.zero false)

/-! ## Concrete instances used in the theorems below -/

/-- A well-formed DTO row with case identifier `C<i>`. -/
def scRow (i : Nat) : ImportRowDto :=
  ⟨"C" ++ toString i, "Applicant", "1990-01-01", "TAX", none, none, none⟩

/-- The chunk of `n` rows starting at absolute index `s`, as the frontend
submit loop slices it. -/
def scChunk (s n : Nat) : BatchImportDto :=
  ⟨(List.range n).map (fun k => scRow (s + k)), s⟩

/-- A freshly created import job for a 250-row set. -/
def scJob0 : ImportJob :=
  ⟨"job-1", "cases.csv", 250, 0, 0, 0, -1, ImportStatus.PENDING, []⟩

/-- Submit one chunk and keep the updated job record and store. -/
def scStep (p : ImportJob × List String) (s n : Nat) : ImportJob × List String :=
  match processBatch (some p.1) p.2 (scChunk s n) with
  | .ok (_, j, st) => (j, st)
  | .error _ => p

/-- The job after sequentially submitting the three chunks `0..99`,
`100..199`, `200..249` of a 250-row set. -/
def scFinal : ImportJob :=
  (scStep (scStep (scStep (scJob0, []) 0 100) 100 100) 200 50).1

/-- A job that has already completed. -/
def cCompletedJob : ImportJob :=
  ⟨"job-2", "done.csv", 2, 2, 2, 0, 1, ImportStatus.COMPLETED, []⟩

/-- A paused job. -/
def cPausedJob : ImportJob :=
  ⟨"job-3", "half.csv", 10, 4, 3, 1, 3, ImportStatus.PAUSED, []⟩

/-- A one-row chunk for resubmission tests. -/
def wDto : BatchImportDto :=
  ⟨[⟨"W1", "Applicant", "1990-01-01", "TAX", none, none, none⟩], 4⟩

/-- The chunk exhibiting the error-index skew: at `startIndex = 10`, row 0
fails pre-validation (empty `caseId`) and row 1 collides with an
already-stored identifier. -/
def c4Dto : BatchImportDto :=
  ⟨[⟨"", "Alice", "1990-01-01", "TAX", none, none, none⟩,
    ⟨"DUP", "Bob", "1990-01-01", "TAX", none, none, none⟩], 10⟩

/-- Store already holding the identifier `DUP`. -/
def c4Store : List String := ["DUP"]

/-- A fully valid mapped row with id `r1`. -/
def c2Row : CaseRow :=
  ⟨some "r1", some "C-1", some "Ann", some "1990-01-01", none, none, some "TAX", none⟩

/-- Store state in which row `r1` has already been submitted successfully. -/
def c2State : ImportState :=
  ⟨[c2Row], [], [("r1", RowStatus.success)]⟩

/-- The first end-to-end scenario row of the spec: doubled space in the
name, bare 10-digit phone, empty priority. -/
def c8Row : CaseRow :=
  ⟨some "r8", some "C-1001", some "John  Doe", some "1990-01-01",
   some "john@example.com", some "9876543210", some "TAX", some ""⟩

/-- The expected single validation error of `c8Row`: the empty priority
fails the zod enum, with suggestion `LOW`. -/
def c8PriorityError : ValidationError :=
  ⟨"priority", "Invalid enum value. Expected 'LOW' | 'MEDIUM' | 'HIGH', received ''",
   some "", some "LOW"⟩

/-- The second end-to-end scenario row of the spec: empty identifier and
name, out-of-range dob, invalid category; email, phone, priority absent. -/
def c9Row : CaseRow :=
  ⟨some "r9", some "", some "", some "2099-01-01", none, none, some "INVALID", none⟩

/-- Rows for the duplicate-in-file scenario: two otherwise-valid rows with
the same case identifier `A-1`, then an unrelated valid row. -/
def c7RowA1 : CaseRow :=
  ⟨some "ra", some "A-1", some "Ann", some "1990-01-01", none, none, some "TAX", none⟩

def c7RowA2 : CaseRow :=
  ⟨some "rb", some "A-1", some "Ben", some "1991-02-02", none, none, some "TAX", none⟩

def c7RowB : CaseRow :=
  ⟨some "rc", some "B-1", some "Cas", some "1992-03-03", none, none, some "TAX", none⟩

def c7Rows : List CaseRow := [c7RowA1, c7RowA2, c7RowB]

/-! ## Helper lemmas -/

theorem lookupA_setA_self {α : Type} (m : List (String × α)) (k : String) (v : α) :
    lookupA (setA m k v) k = some v := by
  induction m with
  | nil => simp [setA, lookupA]
  | cons hd tl ih =>
      obtain ⟨k', v'⟩ := hd
      by_cases h : k' = k <;> simp [setA, lookupA, h, ih]

theorem lookupA_setA_ne {α : Type} (m : List (String × α)) (k k' : String) (v : α)
    (h : k' ≠ k) : lookupA (setA m k' v) k = lookupA m k := by
  induction m with
  | nil => simp [setA, lookupA, h]
  | cons hd tl ih =>
      obtain ⟨k₀, v₀⟩ := hd
      by_cases h0 : k₀ = k'
      · subst h0; simp [setA, lookupA, h]
      · simp [setA, lookupA, h0, ih]

theorem includesL_nil (l : List Char) : includesL l [] = true := by
  cases l <;> simp [includesL, startsWithL]

/-! ## C1 — additive counter updates per accepted chunk -/

/-- C1: for every chunk accepted by `processBatch` (job present, status not
`COMPLETED`/`FAILED`) the call succeeds and the job record is updated
additively: `totalRows` is untouched, `processedRows` grows by the chunk's
row count, `successCount`/`failedCount` by the chunk's success/failed
counts, `lastProcessedIndex` becomes `startIndex + rows.length - 1` (the
chunk's last absolute index), and the status becomes `COMPLETED` exactly
when the new `processedRows` reaches `totalRows`, else `PROCESSING`. The
witness runs the 250-row scenario in chunks of 100 at start indices
0, 100, 200. -/
theorem processBatch_additive_update (job : ImportJob) (store : List String)
    (dto : BatchImportDto)
    (hc : job.status ≠ ImportStatus.COMPLETED)
    (hf : job.status ≠ ImportStatus.FAILED) :
    processBatch (some job) store dto
      = .ok ((chunkResult store dto).1, updateJob job dto (chunkResult store dto).1,
             (chunkResult store dto).2) ∧
    (updateJob job dto (chunkResult store dto).1).totalRows = job.totalRows ∧
    (updateJob job dto (chunkResult store dto).1).processedRows
      = job.processedRows + dto.rows.length ∧
    (updateJob job dto (chunkResult store dto).1).successCount
      = job.successCount + (chunkResult store dto).1.success ∧
    (updateJob job dto (chunkResult store dto).1).failedCount
      = job.failedCount + (chunkResult store dto).1.failed ∧
    (updateJob job dto (chunkResult store dto).1).lastProcessedIndex
      = (dto.startIndex : Int) + dto.rows.length - 1 ∧
    (updateJob job dto (chunkResult store dto).1).status
      = (if job.totalRows ≤ job.processedRows + dto.rows.length
         then ImportStatus.COMPLETED else ImportStatus.PROCESSING) := by
  refine ⟨?_, rfl, rfl, rfl, rfl, rfl, rfl⟩
  simp [processBatch, hc, hf]

set_option maxRecDepth 10000 in
theorem processBatch_additive_update_witness :
    (scJob0.status ≠ ImportStatus.COMPLETED ∧ scJob0.status ≠ ImportStatus.FAILED) ∧
    processBatch (some scJob0) [] (scChunk 0 100)
      = .ok ((chunkResult [] (scChunk 0 100)).1,
             updateJob scJob0 (scChunk 0 100) (chunkResult [] (scChunk 0 100)).1,
             (chunkResult [] (scChunk 0 100)).2) ∧
    scFinal.processedRows = 250 ∧ scFinal.status = ImportStatus.COMPLETED := by
  refine ⟨⟨by decide, by decide⟩,
    (processBatch_additive_update scJob0 [] (scChunk 0 100) (by decide) (by decide)).1,
    ?_, ?_⟩ <;> decide

/-! ## C10 — a chunk sent to a paused job is processed and un-pauses it -/

/-- C10: `processBatch` rejects only a missing job (`NotFound`) and a
`COMPLETED`/`FAILED` job (`InvalidState`); a chunk sent to a `PAUSED` job is
accepted and processed normally, and the final counter update sets the
status to `PROCESSING` (or `COMPLETED`), never back to `PAUSED` — the job is
silently un-paused. -/
theorem processBatch_paused_job_processed (job : ImportJob) (store : List String)
    (dto : BatchImportDto) (h : job.status = ImportStatus.PAUSED) :
    processBatch none store dto = .error (.notFound "Import job not found") ∧
    processBatch (some job) store dto
      = .ok ((chunkResult store dto).1, updateJob job dto (chunkResult store dto).1,
             (chunkResult store dto).2) ∧
    (updateJob job dto (chunkResult store dto).1).status
      = (if job.totalRows ≤ job.processedRows + dto.rows.length
         then ImportStatus.COMPLETED else ImportStatus.PROCESSING) ∧
    (updateJob job dto (chunkResult store dto).1).status ≠ ImportStatus.PAUSED := by
  refine ⟨rfl, ?_, rfl, ?_⟩
  · simp [processBatch, h]
  · show (if job.totalRows ≤ job.processedRows + dto.rows.length
          then ImportStatus.COMPLETED else ImportStatus.PROCESSING) ≠ ImportStatus.PAUSED
    split <;> decide

theorem processBatch_paused_job_processed_witness :
    cPausedJob.status = ImportStatus.PAUSED ∧
    processBatch (some cPausedJob) [] wDto
      = .ok ((chunkResult [] wDto).1, updateJob cPausedJob wDto (chunkResult [] wDto).1,
             (chunkResult [] wDto).2) ∧
    (updateJob cPausedJob wDto (chunkResult [] wDto).1).status = ImportStatus.PROCESSING :=
  ⟨rfl, (processBatch_paused_job_processed cPausedJob [] wDto rfl).2.1, by decide⟩

/-! ## C3 — pause/resume status rules -/

/-- C3 counterexample: pausing a `COMPLETED` job does not fail — `pauseImport`
performs no status check at all and happily returns success, flipping the
finished job to `PAUSED`. -/
theorem pauseImport_completed_job_succeeds :
    pauseImport (some cCompletedJob)
      = .ok ("Import paused", 1, { cCompletedJob with status := ImportStatus.PAUSED }) := rfl

/-- C3 amended: `pauseImport` fails only with `NotFound` for an unknown job
id; for any existing job — whatever its status, including `COMPLETED`,
`FAILED` or already-`PAUSED` — it succeeds and sets the status to `PAUSED`.
`resumeImport` fails with an invalid-state error from every status except
`PAUSED`; a successful resume flips the status to `PROCESSING` and reports
`remainingRows = totalRows - processedRows`. -/
theorem pause_resume_state_rules (job : ImportJob) :
    pauseImport none = .error (.notFound "Import job not found") ∧
    pauseImport (some job)
      = .ok ("Import paused", job.lastProcessedIndex,
             { job with status := ImportStatus.PAUSED }) ∧
    (job.status ≠ ImportStatus.PAUSED →
      resumeImport (some job) = .error (.invalidState "Import is not paused")) ∧
    (job.status = ImportStatus.PAUSED →
      resumeImport (some job)
        = .ok ("Import resumed", job.lastProcessedIndex,
               (job.totalRows : Int) - (job.processedRows : Int),
               { job with status := ImportStatus.PROCESSING })) := by
  refine ⟨rfl, rfl, fun h => ?_, fun h => ?_⟩
  · simp [resumeImport, h]
  · simp [resumeImport, h]

theorem pause_resume_state_rules_witness :
    (cCompletedJob.status ≠ ImportStatus.PAUSED ∧
      resumeImport (some cCompletedJob) = .error (.invalidState "Import is not paused")) ∧
    (cPausedJob.status = ImportStatus.PAUSED ∧
      resumeImport (some cPausedJob)
        = .ok ("Import resumed", 3, 6,
               { cPausedJob with status := ImportStatus.PROCESSING })) := by
  refine ⟨⟨by decide, (pause_resume_state_rules cCompletedJob).2.2.1 (by decide)⟩,
          ⟨rfl, ?_⟩⟩
  have h := (pause_resume_state_rules cPausedJob).2.2.2 rfl
  rw [h]; rfl

/-! ## C2 — revalidation reverts mid/post-submission rows -/

/-- C2: the claim fails against the code and the spec's requirement is the
intent: `setValidationErrors` unconditionally rewrites the status of every
row of `mappedData` to `valid`/`invalid` from the new error map. At the
concrete state `c2State`, row `r1` has status `success`, yet a revalidation
pass with an empty error map reverts it to `valid`. -/
theorem setValidationErrors_reverts_submitted_row :
    lookupA c2State.rowStatuses "r1" = some RowStatus.success ∧
    lookupA (setValidationErrors c2State []).rowStatuses "r1" = some RowStatus.valid := by
  decide

/-! ## C5 — auto-mapping uniqueness invariant -/

set_option maxRecDepth 10000 in
/-- C5: with three identical headers `id` (all best-matching `case_id` with
confidence 1), the output still has one entry per header in order, but the
assignment loop's `findIndex` always locates the FIRST slot with that column
name, so it blanks the wrong slot: the final result maps BOTH the second and
the third `id` column to `case_id`, violating the one-to-one uniqueness
invariant the code's own comment (`Assign fields, avoiding duplicates`)
promises. -/
theorem autoMapColumns_duplicate_headers_break_uniqueness :
    (autoMapColumns ["id", "id", "id"]).length = 3 ∧
    (autoMapColumns ["id", "id", "id"]).map (fun m => m.csvColumn) = ["id", "id", "id"] ∧
    (autoMapColumns ["id", "id", "id"]).map (fun m => m.schemaField)
      = [none, some SchemaField.case_id, some SchemaField.case_id] := by
  decide

/-! ## C6 — similarity on empty-normalizing inputs -/

/-- C6 counterexample: `"!"` normalizes to the empty string while `"a"` does
not; the claim says `similarity` must return 1.0, but the code takes the
substring-bonus branch (JS `includes("")` is true) and returns 0.9, which is
strictly below 1. -/
theorem similarity_one_empty_counterexample :
    normalizeHeader "!" = [] ∧ similarity "!" "a" = ⟨9, 10⟩ ∧
    Score.lt (similarity "!" "a") Score.one = true := by decide

/-- C6 amended: when at least one input normalizes to the empty string,
`similarity` returns 1.0 exactly when the two normalized strings are equal
(in particular when both are empty); when exactly one is empty it returns
the 0.9 substring bonus instead. -/
theorem similarity_empty_normalized (s1 s2 : String)
    (h : normalizeHeader s1 = [] ∨ normalizeHeader s2 = []) :
    similarity s1 s2
      = (if normalizeHeader s1 = normalizeHeader s2 then Score.one else ⟨9, 10⟩) := by
  unfold similarity
  by_cases heq : normalizeHeader s1 = normalizeHeader s2
  · simp [heq]
  · rcases h with h1 | h2
    · have hs2 : normalizeHeader s2 ≠ [] := fun hh => heq (by rw [h1, hh])
      simp [heq, h1, hs2, includesL_nil, List.length_eq_zero]
    · have hs1 : normalizeHeader s1 ≠ [] := fun hh => heq (by rw [h2, hh])
      have hpos : 0 < (normalizeHeader s1).length := List.length_pos.mpr hs1
      simp [heq, h2, hpos, includesL_nil, List.length_eq_zero, hs1]

theorem similarity_empty_normalized_witness :
    (normalizeHeader "!" = [] ∨ normalizeHeader "?" = []) ∧
    similarity "!" "?" = Score.one ∧
    (normalizeHeader "!" = [] ∨ normalizeHeader "a" = []) ∧
    similarity "!" "a" = ⟨9, 10⟩ := by
  refine ⟨Or.inl (by decide), ?_, Or.inl (by decide), ?_⟩
  · have h := similarity_empty_normalized "!" "?" (Or.inl (by decide))
    rw [h]; decide
  · have h := similarity_empty_normalized "!" "a" (Or.inl (by decide))
    rw [h]; decide

/-! ## C8 — first end-to-end validation scenario -/

/-- C8 counterexample: on the spec's first scenario row, validation does NOT
report zero errors. zod's `.default('LOW')` only substitutes `undefined`,
so the present-but-empty `priority` fails the enum: `validateRow` returns
exactly one error, on `priority` (with suggestion `LOW`). In particular no
suggestion rides on `applicant_name` or `phone` — suggestions are attached
to errors only, and those fields pass validation. -/
theorem validateRow_scenario1_counterexample :
    validateRow 2026 c8Row = [c8PriorityError] ∧ validateRow 2026 c8Row ≠ [] := by
  decide

/-- C8 amended: for the scenario row, in any year from 1990 on, validation
reports exactly one error: the empty `priority` fails the priority enum and
carries the suggestion `LOW`; every other field (including the doubled-space
name and the bare 10-digit phone) passes, so no suggestion is produced for
`applicant_name` or `phone`. -/
theorem validateRow_scenario1 (cy : Nat) (h : 1990 ≤ cy) :
    validateRow cy c8Row = [c8PriorityError] := by
  have hdi : dobIssues cy (some "1990-01-01") = [] := by
    have hp : parseIsoDate "1990-01-01" = some 1990 := by decide
    simp [dobIssues, dobRefineOk, hp, h]
  simp only [validateRow, c8Row]
  rw [hdi]
  decide

theorem validateRow_scenario1_witness :
    1990 ≤ 2026 ∧ validateRow 2026 c8Row = [c8PriorityError] :=
  ⟨by decide, validateRow_scenario1 2026 (by decide)⟩

/-! ## C9 — second end-to-end validation scenario -/

/-- C9: on the row with empty identifier and name, dob `2099-01-01` and
category `INVALID` (email, phone, priority absent), `validateRow` returns
exactly four errors — missing case id, missing name, out-of-range dob,
invalid category — in schema order, for any current year before 2099. -/
theorem validateRow_scenario2 (cy : Nat) (h : cy < 2099) :
    validateRow cy c9Row
      = [⟨"case_id", "Case ID is required", some "", none⟩,
         ⟨"applicant_name", "Applicant name is required", some "", none⟩,
         ⟨"dob", "Invalid date (must be between 1900 and today)", some "2099-01-01", none⟩,
         ⟨"category", "Category must be TAX, LICENSE, or PERMIT", some "INVALID", none⟩] := by
  have hdi : dobIssues cy (some "2099-01-01")
      = ["Invalid date (must be between 1900 and today)"] := by
    have hp : parseIsoDate "2099-01-01" = some 2099 := by decide
    have hb : dobRefineOk cy "2099-01-01" = false := by
      simp [dobRefineOk, hp]
      omega
    simp [dobIssues, hb]
  simp only [validateRow, c9Row]
  rw [hdi]
  decide

theorem validateRow_scenario2_witness :
    2026 < 2099 ∧
    validateRow 2026 c9Row
      = [⟨"case_id", "Case ID is required", some "", none⟩,
         ⟨"applicant_name", "Applicant name is required", some "", none⟩,
         ⟨"dob", "Invalid date (must be between 1900 and today)", some "2099-01-01", none⟩,
         ⟨"category", "Category must be TAX, LICENSE, or PERMIT", some "INVALID", none⟩] :=
  ⟨by decide, validateRow_scenario2 2026 (by decide)⟩

/-! ## C4 — error-entry indices inside a chunk -/

theorem phase1Go_errors_spec (startIndex : Nat) :
    ∀ (rows : List ImportRowDto) (i0 : Nat) (e : BatchError),
      e ∈ (phase1Go startIndex rows i0).2 →
      ∃ i, ∃ h : i < rows.length,
        e.index = startIndex + (i0 + i) ∧
        prevalidate (rows.get ⟨i, h⟩) = some e.error ∧
        e.caseId = jsOrString (rows.get ⟨i, h⟩).caseId "unknown" := by
  intro rows
  induction rows with
  | nil => intro i0 e he; simp [phase1Go] at he
  | cons row rest ih =>
      intro i0 e he
      cases hpre : prevalidate row with
      | some msg =>
          simp only [phase1Go, hpre, List.mem_cons] at he
          rcases he with he | he
          · subst he
            exact ⟨0, by simp, by simp, by simp [hpre], by simp⟩
          · obtain ⟨i, h, h1, h2, h3⟩ := ih (i0 + 1) e he
            exact ⟨i + 1, by simpa using Nat.succ_lt_succ h,
                   by rw [h1]; ring_nf, by simpa using h2, by simpa using h3⟩
      | none =>
          simp only [phase1Go, hpre] at he
          obtain ⟨i, h, h1, h2, h3⟩ := ih (i0 + 1) e he
          exact ⟨i + 1, by simpa using Nat.succ_lt_succ h,
                 by rw [h1]; ring_nf, by simpa using h2, by simpa using h3⟩

theorem phase2Go_errors_spec (startIndex : Nat) :
    ∀ (creations : List CaseCreation) (store : List String) (j0 : Nat) (e : BatchError),
      e ∈ (phase2Go startIndex store creations j0).2.2.1 →
      ∃ j, ∃ h : j < creations.length,
        e.index = startIndex + (j0 + j) ∧
        e.caseId = (creations.get ⟨j, h⟩).caseId ∧
        e.error = "Duplicate case ID" := by
  intro creations
  induction creations with
  | nil => intro store j0 e he; simp [phase2Go] at he
  | cons c rest ih =>
      intro store j0 e he
      by_cases hmem : c.caseId ∈ store
      · simp only [phase2Go, if_pos hmem, List.mem_cons] at he
        rcases he with he | he
        · subst he
          exact ⟨0, by simp, by simp, by simp, by simp⟩
        · obtain ⟨j, h, h1, h2, h3⟩ := ih store (j0 + 1) e he
          exact ⟨j + 1, by simpa using Nat.succ_lt_succ h,
                 by rw [h1]; ring_nf, by simpa using h2, h3⟩
      · simp only [phase2Go, if_neg hmem] at he
        obtain ⟨j, h, h1, h2, h3⟩ := ih (c.caseId :: store) (j0 + 1) e he
        exact ⟨j + 1, by simpa using Nat.succ_lt_succ h,
               by rw [h1]; ring_nf, by simpa using h2, h3⟩

/-- C4 counterexample: at `startIndex = 10`, a chunk whose row 0 fails
pre-validation and whose row 1 collides with a stored identifier produces a
`Duplicate case ID` entry with `index = 10` — the position of the colliding
row inside the compacted `caseCreations` list (`indexOf`), not its absolute
index 11 in the submitted rows; no error entry carries index 11 at all,
refuting the claim that every entry's index is `startIndex` plus the row's
position in the submitted rows array. -/
theorem chunk_error_index_counterexample :
    (chunkResult c4Store c4Dto).1.errors
      = [⟨10, "unknown", "Missing required fields"⟩, ⟨10, "DUP", "Duplicate case ID"⟩] ∧
    (∀ e ∈ (chunkResult c4Store c4Dto).1.errors, e.index ≠ 11) := by decide

/-- C4 amended: in every chunk, pre-validation failure entries carry
`index = startIndex + (row's position in the submitted rows array)`, while
store-side failure entries carry `index = startIndex + (the row's position
within the compacted caseCreations list of rows that passed pre-validation)`
— these coincide only when no earlier row of the chunk failed
pre-validation; every store-side failure against an already-stored
identifier is classified with the specific message `Duplicate case ID`. -/
theorem chunk_error_indexing (store : List String) (dto : BatchImportDto) :
    (chunkResult store dto).1.errors
      = (phase1Go dto.startIndex dto.rows 0).2
        ++ (phase2Go dto.startIndex store (phase1Go dto.startIndex dto.rows 0).1 0).2.2.1 ∧
    (∀ e ∈ (phase1Go dto.startIndex dto.rows 0).2,
      ∃ i, ∃ h : i < dto.rows.length,
        e.index = dto.startIndex + i ∧
        prevalidate (dto.rows.get ⟨i, h⟩) = some e.error ∧
        e.caseId = jsOrString (dto.rows.get ⟨i, h⟩).caseId "unknown") ∧
    (∀ e ∈ (phase2Go dto.startIndex store (phase1Go dto.startIndex dto.rows 0).1 0).2.2.1,
      ∃ j, ∃ h : j < (phase1Go dto.startIndex dto.rows 0).1.length,
        e.index = dto.startIndex + j ∧
        e.caseId = ((phase1Go dto.startIndex dto.rows 0).1.get ⟨j, h⟩).caseId ∧
        e.error = "Duplicate case ID") := by
  refine ⟨rfl, fun e he => ?_, fun e he => ?_⟩
  · obtain ⟨i, h, h1, h2, h3⟩ := phase1Go_errors_spec dto.startIndex dto.rows 0 e he
    exact ⟨i, h, by simpa using h1, h2, h3⟩
  · obtain ⟨j, h, h1, h2, h3⟩ :=
      phase2Go_errors_spec dto.startIndex (phase1Go dto.startIndex dto.rows 0).1 store 0 e he
    exact ⟨j, h, by simpa using h1, h2, h3⟩

theorem chunk_error_indexing_witness :
    ((⟨10, "DUP", "Duplicate case ID"⟩ : BatchError)
        ∈ (phase2Go c4Dto.startIndex c4Store (phase1Go c4Dto.startIndex c4Dto.rows 0).1 0).2.2.1) ∧
    (∃ j, ∃ h : j < (phase1Go c4Dto.startIndex c4Dto.rows 0).1.length,
        (⟨10, "DUP", "Duplicate case ID"⟩ : BatchError).index = c4Dto.startIndex + j ∧
        (⟨10, "DUP", "Duplicate case ID"⟩ : BatchError).caseId
          = ((phase1Go c4Dto.startIndex c4Dto.rows 0).1.get ⟨j, h⟩).caseId ∧
        (⟨10, "DUP", "Duplicate case ID"⟩ : BatchError).error = "Duplicate case ID") :=
  ⟨by decide, (chunk_error_indexing c4Store c4Dto).2.2 _ (by decide)⟩

/-! ## C7 — duplicate-in-file detection rules -/

theorem mem_seenUpdate (seen : List String) (row : CaseRow) (c : String) :
    c ∈ seenUpdate seen row ↔ c ∈ seen ∨ (row.case_id = some c ∧ c ≠ "") := by
  cases h : row.case_id with
  | none => simp [seenUpdate, h]
  | some cid =>
      by_cases hc : cid = ""
      · subst hc
        rw [show seenUpdate seen row = seen from by simp [seenUpdate, h]]
        constructor
        · exact Or.inl
        · rintro (hm | ⟨heq, hne⟩)
          · exact hm
          · exact absurd (Option.some.inj heq).symm hne
      · rw [show seenUpdate seen row = seen.insert cid from by simp [seenUpdate, h, hc]]
        rw [List.mem_insert_iff]
        constructor
        · rintro (rfl | hm)
          · exact Or.inr ⟨rfl, hc⟩
          · exact Or.inl hm
        · rintro (hm | ⟨heq, hne⟩)
          · exact Or.inr hm
          · exact Or.inl (Option.some.inj heq).symm

theorem validateAll_seen_mem (cy : Nat) :
    ∀ (rows : List CaseRow) (st : List String × List (String × List ValidationError))
      (c : String),
      c ∈ (rows.foldl (validateAllStep cy) st).1 ↔
        c ∈ st.1 ∨ ∃ row ∈ rows, row.case_id = some c ∧ c ≠ "" := by
  intro rows
  induction rows with
  | nil => intro st c; simp
  | cons row rest ih =>
      intro st c
      rw [List.foldl_cons, ih]
      rw [show (validateAllStep cy st row).1 = seenUpdate st.1 row from rfl]
      rw [mem_seenUpdate]
      constructor
      · rintro ((hm | hrow) | ⟨r, hr1, hr2⟩)
        · exact Or.inl hm
        · exact Or.inr ⟨row, List.mem_cons_self _ _, hrow⟩
        · exact Or.inr ⟨r, List.mem_cons_of_mem _ hr1, hr2⟩
      · rintro (hm | ⟨r, hr1, hr2⟩)
        · exact Or.inl (Or.inl hm)
        · rcases List.mem_cons.mp hr1 with rfl | hr1n
          · exact Or.inl (Or.inr hr2)
          · exact Or.inr ⟨r, hr1n, hr2⟩

theorem validateAll_lookup_of_no_key (cy : Nat) :
    ∀ (rows : List CaseRow) (st : List String × List (String × List ValidationError))
      (k : String),
      (∀ row ∈ rows, rowKey row ≠ k) →
      lookupA (rows.foldl (validateAllStep cy) st).2 k = lookupA st.2 k := by
  intro rows
  induction rows with
  | nil => intro st k _; rfl
  | cons row rest ih =>
      intro st k h
      rw [List.foldl_cons, ih _ k (fun r hr => h r (List.mem_cons_of_mem _ hr))]
      show lookupA (if rowAllErrors cy st.1 row = [] then st.2
                    else setA st.2 (rowKey row) (rowAllErrors cy st.1 row)) k
          = lookupA st.2 k
      split
      · rfl
      · exact lookupA_setA_ne _ _ _ _ (h row (List.mem_cons_self _ _))

/-- C7: for every row list processed by `validateAllRows` and every position
`i` whose row has a unique `_id` key among the rows, (1) the returned map's
entry for that row is exactly its computed error list when nonempty and
absent when the row has zero errors; (2) when the row is the FIRST (in input
order) to carry its nonempty case identifier, its error list is exactly its
own `validateRow` field errors — no duplicate-in-file error; (3) when some
earlier row already carried the same nonempty identifier, the row's error
list is its own field errors PLUS the duplicate-in-file error appended. -/
theorem validateAllRows_duplicate_rules (cy : Nat) (rows : List CaseRow) (i : Nat)
    (hi : i < rows.length)
    (hkeys : ∀ row' ∈ rows.take i ++ rows.drop (i + 1),
      rowKey row' ≠ rowKey (rows.get ⟨i, hi⟩)) :
    (lookupA (validateAllRows cy rows) (rowKey (rows.get ⟨i, hi⟩))
      = if rowAllErrors cy ((rows.take i).foldl (validateAllStep cy) ([], [])).1
             (rows.get ⟨i, hi⟩) = []
        then none
        else some (rowAllErrors cy ((rows.take i).foldl (validateAllStep cy) ([], [])).1
             (rows.get ⟨i, hi⟩))) ∧
    (∀ cid, (rows.get ⟨i, hi⟩).case_id = some cid → cid ≠ "" →
      (∀ row' ∈ rows.take i, row'.case_id ≠ some cid) →
      rowAllErrors cy ((rows.take i).foldl (validateAllStep cy) ([], [])).1 (rows.get ⟨i, hi⟩)
        = validateRow cy (rows.get ⟨i, hi⟩)) ∧
    (∀ cid, (rows.get ⟨i, hi⟩).case_id = some cid → cid ≠ "" →
      (∃ row' ∈ rows.take i, row'.case_id = some cid) →
      rowAllErrors cy ((rows.take i).foldl (validateAllStep cy) ([], [])).1 (rows.get ⟨i, hi⟩)
        = validateRow cy (rows.get ⟨i, hi⟩) ++ [dupError cid]) := by
  set row := rows.get ⟨i, hi⟩ with hrow
  set stI := (rows.take i).foldl (validateAllStep cy)
    (([] : List String), ([] : List (String × List ValidationError))) with hstI
  have hsplit : rows = rows.take i ++ row :: rows.drop (i + 1) := by
    rw [hrow]
    conv_lhs => rw [← List.take_append_drop i rows, List.drop_eq_getElem_cons hi]
    simp [List.get_eq_getElem]
  have hfold : validateAllRows cy rows
      = ((rows.drop (i + 1)).foldl (validateAllStep cy) (validateAllStep cy stI row)).2 := by
    unfold validateAllRows
    conv_lhs => rw [hsplit]
    rw [List.foldl_append, List.foldl_cons, ← hstI]
  have hk : lookupA (validateAllRows cy rows) (rowKey row)
      = lookupA (validateAllStep cy stI row).2 (rowKey row) := by
    rw [hfold]
    exact validateAll_lookup_of_no_key cy (rows.drop (i + 1)) _ _
      (fun r hr => hkeys r (List.mem_append_right _ hr))
  have hstep2 : (validateAllStep cy stI row).2
      = if rowAllErrors cy stI.1 row = [] then stI.2
        else setA stI.2 (rowKey row) (rowAllErrors cy stI.1 row) := rfl
  have hbase : lookupA stI.2 (rowKey row) = none := by
    rw [hstI]
    exact (validateAll_lookup_of_no_key cy (rows.take i) ([], []) (rowKey row)
      (fun r hr => hkeys r (List.mem_append_left _ hr))).trans rfl
  refine ⟨?_, ?_, ?_⟩
  · rw [hk, hstep2]
    split
    · exact hbase
    · exact lookupA_setA_self _ _ _
  · intro cid hcid hne hnone
    have hnomem : ¬ (cid ≠ "" ∧ cid ∈ stI.1) := by
      rintro ⟨-, hmem⟩
      rw [hstI, validateAll_seen_mem] at hmem
      rcases hmem with h0 | ⟨r, hr1, hr2, -⟩
      · simp at h0
      · exact hnone r hr1 hr2
    unfold rowAllErrors
    rw [hcid]
    show validateRow cy row ++ (if cid ≠ "" ∧ cid ∈ stI.1 then [dupError cid] else [])
        = validateRow cy row
    rw [if_neg hnomem]
    simp
  · intro cid hcid hne hex
    have hmem : cid ∈ stI.1 := by
      rw [hstI, validateAll_seen_mem]
      obtain ⟨r, hr1, hr2⟩ := hex
      exact Or.inr ⟨r, hr1, hr2, hne⟩
    unfold rowAllErrors
    rw [hcid]
    show validateRow cy row ++ (if cid ≠ "" ∧ cid ∈ stI.1 then [dupError cid] else [])
        = validateRow cy row ++ [dupError cid]
    rw [if_pos ⟨hne, hmem⟩]

theorem validateAllRows_duplicate_rules_witness :
    lookupA (validateAllRows 2026 c7Rows) "rb" = some [dupError "A-1"] ∧
    lookupA (validateAllRows 2026 c7Rows) "ra" = none ∧
    lookupA (validateAllRows 2026 c7Rows) "rc" = none := by
  have h := validateAllRows_duplicate_rules 2026 c7Rows 1 (by decide) (by decide)
  have hdup := h.2.2 "A-1" rfl (by decide) ⟨c7RowA1, by decide, rfl⟩
  have h1 := h.1
  rw [hdup] at h1
  exact ⟨h1, by decide, by decide⟩
